import Mathlib

/-!
Verification development for the terrain-mapper elevation-region module.

The definitions below are a shallow embedding of the segment-adjustment and
elevation-geometry code in `src/scripts/regions/Region.js` and
`src/scripts/regions/RegionElevationHandler.js`.  JavaScript numbers are
modelled as exact rationals (`ℚ`); the rotation-based axis projection, which
goes through trigonometry, is modelled over the reals (`ℝ`).  Float tolerance
comparisons (`almostEqual`) are modelled as exact equality, and the host's
grid-unit/pixel conversion (a positive linear scale and its inverse) is taken
as the identity: every quantity the theorems mention is invariant under that
scale, as noted where the conversion occurs in the source.
-/

/-- A region movement waypoint `{x, y, elevation}` (Region.js / spec data model). -/
structure RWaypoint where
  x : ℚ
  y : ℚ
  elevation : ℚ
deriving DecidableEq

/-- The `Region.MOVEMENT_SEGMENT_TYPES` enumeration: ENTER / MOVE / EXIT. -/
inductive SegmentType
  | enter
  | move
  | exit
deriving DecidableEq

/-- A region movement segment `{type, from, to}`.  `from` is a Lean keyword,
so the two waypoint fields are named `fromW` and `toW`. -/
structure RSegment where
  stype : SegmentType
  fromW : RWaypoint
  toW : RWaypoint
deriving DecidableEq

/-- JavaScript `Math.round`: round half toward positive infinity. -/
def jsRound (q : ℚ) : ℚ := ((⌊q + 1/2⌋ : ℤ) : ℚ)

/-- JavaScript `Math.clamp(x, lo, hi) = Math.min(Math.max(x, lo), hi)`. -/
def clampQ (q lo hi : ℚ) : ℚ := min (max q lo) hi

/-- Squared 2d distance, `PIXI.Point.distanceSquaredBetween`. -/
def dist2Q (a b : ℚ × ℚ) : ℚ := (a.1 - b.1) ^ 2 + (a.2 - b.2) ^ 2

/-- 2d dot product. -/
def dot2Q (a b : ℚ × ℚ) : ℚ := a.1 * b.1 + a.2 * b.2

/-- `FLAGS.REGION.CHOICES`: the elevation-rule kinds. -/
inductive Choices
  | NONE
  | PLATEAU
  | RAMP
  | STAIRS
deriving DecidableEq

/-- Configuration state read by `RegionElevationHandler` through its getters
(`plateauElevation`, `rampFloor`, `rampStepSize`, `minMax`).

Modelled from the spec: the `algorithm` accessor used by
`elevationUponEntry` (RegionElevationHandler.js line 72) is not defined in
the provided source (only its callers are); the spec describes the rule kind
as one of NONE / PLATEAU / RAMP / STAIRS, so it is carried here as a field. -/
structure RegionElevationHandler where
  algorithm : Choices
  plateauElevation : ℚ
  rampFloor : ℚ
  rampStepSize : ℚ
  minMax : Option ((ℚ × ℚ) × (ℚ × ℚ))
deriving DecidableEq

/-- `RegionElevationHandler.#rampElevation(waypoint)` (RegionElevationHandler.js
lines 304-329), returning `none` where the JavaScript produces NaN.

`closestPointToSegment` clamps the orthogonal projection onto the segment, so
`distanceBetween(min, closestPt) / distanceBetween(min, max)` equals
`clamp(dot(w - min, max - min) / dist2(min, max), 0, 1)` exactly; the square
roots cancel and the computation stays rational.  When `min = max` the
denominator is zero: the source has no degenerate-geometry guard, JavaScript
evaluates `0/0 = NaN` (or `d/0 = Infinity`), `NaN.almostEqual` is false and
the NaN propagates to the returned elevation; that poisoned result is `none`.

The source destructures `const { rampFloor, plateauElevation, rampStepHeight }
= this;` (line 323), but the class defines only a `rampStepSize` getter
(line 53), no `rampStepHeight`; the destructured value is therefore
`undefined`, `!rampStepHeight` is true, and the stepped branch (line 328) is
unreachable.  The embedding keeps that branch guarded by the same undefined
binding. -/
def rampElevation (h : RegionElevationHandler) (waypoint : RWaypoint) : Option ℚ :=
  match h.minMax with
  | Option.none => some waypoint.elevation
  | some (mn, mx) =>
    if dist2Q mn mx = 0 then Option.none
    else
      let t0 := clampQ (dot2Q (waypoint.x - mn.1, waypoint.y - mn.2)
        (mx.1 - mn.1, mx.2 - mn.2) / dist2Q mn mx) 0 1
      if t0 = 0 then some h.rampFloor
      else if t0 = 1 then some h.plateauElevation
      else
        let rampStepHeight : Option ℚ := Option.none
        let delta := h.plateauElevation - h.rampFloor
        if rampStepHeight.getD 0 = 0 then some (jsRound (h.rampFloor + t0 * delta))
        else some (jsRound (h.rampFloor +
          ((⌊t0 * delta / rampStepHeight.getD 0⌋ : ℤ) : ℚ) * rampStepHeight.getD 0))

/-- `RegionElevationHandler.elevationUponEntry(location)` (lines 70-77).
The `switch` has no STAIRS case, so a STAIRS handler falls through and the
JavaScript returns `undefined`, modelled as `none`. -/
def elevationUponEntry (h : RegionElevationHandler) (location : RWaypoint) : Option ℚ :=
  match h.algorithm with
  | Choices.NONE => some location.elevation
  | Choices.PLATEAU => some h.plateauElevation
  | Choices.RAMP => rampElevation h location
  | Choices.STAIRS => Option.none

/-- A 3d point with rational coordinates (`Point3d`). -/
structure QPoint3 where
  x : ℚ
  y : ℚ
  z : ℚ
deriving DecidableEq

/-- 3d dot product. -/
def dot3Q (a b : QPoint3) : ℚ := a.x * b.x + a.y * b.y + a.z * b.z

/-- 3d subtraction. -/
def sub3Q (a b : QPoint3) : QPoint3 := ⟨a.x - b.x, a.y - b.y, a.z - b.z⟩

/-- 3d cross product. -/
def cross3Q (a b : QPoint3) : QPoint3 :=
  ⟨a.y * b.z - a.z * b.y, a.z * b.x - a.x * b.z, a.x * b.y - a.y * b.x⟩

/-- A plane, stored as a point on the plane and a normal vector. -/
structure QPlane where
  p : QPoint3
  n : QPoint3
deriving DecidableEq

/-- `RegionElevationHandler._plateauPlane()` (lines 116-134): the horizontal
plane at the plateau elevation, or the ramp plane through `min` at the ramp
floor, `max` at the plateau elevation, and the orthogonal point
`c = min + perp(max - min)` with `perp(v) = (v.y, -v.x)` at the floor.
Grid-to-pixel conversion is the identity here (see the file comment).
When the handler is a ramp but `minMax` is undefined the JavaScript would
throw reading `minMax.min`; that unreachable state is `none`. -/
def plateauPlane (h : RegionElevationHandler) : Option QPlane :=
  if h.algorithm = Choices.PLATEAU then
    some ⟨⟨0, 0, h.plateauElevation⟩, ⟨0, 0, 1⟩⟩
  else
    match h.minMax with
    | Option.none => Option.none
    | some (mnPt, mxPt) =>
      let mn : QPoint3 := ⟨mnPt.1, mnPt.2, h.rampFloor⟩
      let mx : QPoint3 := ⟨mxPt.1, mxPt.2, h.plateauElevation⟩
      let dir := sub3Q mx mn
      let c : QPoint3 := ⟨mn.x + dir.y, mn.y + (-dir.x), mn.z + 0⟩
      some ⟨mn, cross3Q (sub3Q mx mn) (sub3Q c mn)⟩

/-- Modelled from the spec: `Plane.lineSegmentIntersects` /
`Plane.lineSegmentIntersection` live in the geometry library outside `src/`.
The spec describes them as testing whether the 3d segment a-b crosses the
plane and, if so, returning the intersection point.  Signed distances with
the same strict sign mean no crossing; a segment lying in (or parallel to)
the plane yields no single intersection point. -/
def planeSegmentIx (pl : QPlane) (a b : QPoint3) : Option QPoint3 :=
  let da := dot3Q pl.n (sub3Q a pl.p)
  let db := dot3Q pl.n (sub3Q b pl.p)
  if 0 < da * db then Option.none
  else if da = db then Option.none
  else
    let t := da / (da - db)
    some ⟨a.x + t * (b.x - a.x), a.y + t * (b.y - a.y), a.z + t * (b.z - a.z)⟩

/-- `RegionElevationHandler.plateauSegmentIntersection(a, b)` (lines 86-107).

When `a` and `b` share x,y the segment is vertical: the result elevation is
the larger of the two endpoints' nearest-ground elevations, accepted only if
it lies (inclusively, per `Number.between`) between the endpoint elevations.
`Region[MODULE_ID].nearestGroundElevation` is defined outside `src/`, so it
is taken as the function parameter `ng`.

Otherwise the segment is intersected with the plateau/ramp plane and the
intersection's elevation is re-evaluated through `elevationUponEntry`; the
source assigns that result unconditionally, and the embedding keeps the raw
plane elevation only in the unreachable case where `elevationUponEntry`
would be undefined. -/
def plateauSegmentIntersection (ng : RWaypoint → ℚ) (h : RegionElevationHandler)
    (a b : RWaypoint) : Option RWaypoint :=
  if a.x = b.x ∧ a.y = b.y then
    let e := max (ng a) (ng b)
    if min a.elevation b.elevation ≤ e ∧ e ≤ max a.elevation b.elevation then
      some { a with elevation := e }
    else Option.none
  else
    match plateauPlane h with
    | Option.none => Option.none
    | some pl =>
      match planeSegmentIx pl ⟨a.x, a.y, a.elevation⟩ ⟨b.x, b.y, b.elevation⟩ with
      | Option.none => Option.none
      | some ix =>
        let w : RWaypoint := ⟨ix.x, ix.y, ix.z⟩
        some { w with elevation := (elevationUponEntry h w).getD w.elevation }

/-- The behavior document kinds relevant to the guards: the module's
`setElevation` behavior type versus anything else (`elevator`, stairs
behaviors, or core types). -/
inductive BType
  | setElevation
  | elevator
  | other
deriving DecidableEq

/-- The fields of `behavior.system` that the segment adjusters destructure:
`algorithm`, `elevation`, `floor`, `reset`. -/
structure BehaviorSystem where
  algorithm : Choices
  elevation : ℚ
  floor : ℚ
  reset : Bool
deriving DecidableEq

/-- A region behavior document: its type, its `disabled` flag and its system. -/
structure Behavior where
  btype : BType
  disabled : Bool
  system : BehaviorSystem
deriving DecidableEq

/-- `constructVerticalMoveSegment(waypoint, targetElevation)` (Region.js
lines 632-646): a MOVE segment at the waypoint's x,y from its elevation to
the target elevation. -/
def constructVerticalMoveSegment (waypoint : RWaypoint) (targetElevation : ℚ) : RSegment :=
  { stype := SegmentType.move,
    fromW := ⟨waypoint.x, waypoint.y, waypoint.elevation⟩,
    toW := ⟨waypoint.x, waypoint.y, targetElevation⟩ }

/-- Set both endpoint elevations of a segment to the terrain floor, the
mutation performed by `insertVerticalMoveToTerrainFloor` on the EXIT segment
itself (Region.js lines 612-613). -/
def setSegElevations (seg : RSegment) (floor : ℚ) : RSegment :=
  { seg with fromW := { seg.fromW with elevation := floor },
             toW := { seg.toW with elevation := floor } }

/-- `insertVerticalMoveToTerrainFloor(i, segments, floor)` (Region.js lines
610-623), expressed functionally: the segments that replace the EXIT segment
at index `i`.  `prev` is the segment at `i - 1` (the last segment already
scanned); when there is none the source substitutes `{ to: segment.from }`
whose elevation was just set to the floor, so no vertical move is added. -/
def exitResetSegments (tFloor : ℚ) (prev : Option RSegment) (seg : RSegment) : List RSegment :=
  let seg' := setSegElevations seg tFloor
  match prev with
  | some p =>
    if p.toW.elevation = tFloor then [seg']
    else [constructVerticalMoveSegment p.toW tFloor, seg']
  | Option.none => [seg']

/-- The clamp applied to a MOVE segment after entry onto a plateau
(Region.js lines 427-428): both elevations become `max(elevation, current)`. -/
def clampToElevation (elevation : ℚ) (seg : RSegment) : RSegment :=
  { seg with
    fromW := { seg.fromW with elevation := max elevation seg.fromW.elevation },
    toW := { seg.toW with elevation := max elevation seg.toW.elevation } }

/-- The scan loop of `modifySegmentsForPlateau` (Region.js lines 406-467).

The in-place array splicing with manual `i`/`n` bookkeeping becomes a
recursion that emits output segments in order; `prev` is the segment stored
just before the current index (needed by the EXIT case), and `entered` is
the loop state.  A freefall MOVE split replaces the segment with
`from -> ix` and `ix -> to` and resumes the scan at the second half, which
the recursion mirrors by pushing `fromIx` back onto the worklist; a fuel
counter (initialised at more than twice the list length, enough for every
segment plus one split apiece) stands in for the loop bound.
`behavior.system.plateauSegmentIntersection` is a method of the behavior
system class outside `src/`, so it is the function parameter `ixFn`;
`regionWaypointsXYEqual` / `regionWaypointsEqual` (util.js, outside `src/`)
compare x,y and x,y,elevation respectively, per the spec's waypoint model. -/
def plateauGo (elevation tFloor : ℚ) (reset freefall : Bool)
    (ixFn : RWaypoint → RWaypoint → Option RWaypoint) :
    Nat → Bool → Option RSegment → List RSegment → List RSegment
  | 0, _, _, segs => segs
  | _ + 1, _, _, [] => []
  | fuel + 1, entered, prev, seg :: rest =>
    match seg.stype with
    | SegmentType.enter =>
      if elevation = seg.toW.elevation then
        seg :: plateauGo elevation tFloor reset freefall ixFn fuel true (some seg) rest
      else
        let v := constructVerticalMoveSegment seg.toW elevation
        seg :: v :: plateauGo elevation tFloor reset freefall ixFn fuel true (some v) rest
    | SegmentType.move =>
      if entered then
        let s := clampToElevation elevation seg
        s :: plateauGo elevation tFloor reset freefall ixFn fuel true (some s) rest
      else if freefall = true ∧ elevation < seg.fromW.elevation ∧ seg.toW.elevation < elevation then
        let ixOpt := if seg.fromW.x = seg.toW.x ∧ seg.fromW.y = seg.toW.y
          then some { seg.fromW with elevation := elevation }
          else ixFn seg.fromW seg.toW
        match ixOpt with
        | some ix =>
          if ix = seg.fromW ∨ ix = seg.toW then
            seg :: plateauGo elevation tFloor reset freefall ixFn fuel false (some seg) rest
          else
            let toIx : RSegment := ⟨SegmentType.move, seg.fromW, ix⟩
            let fromIx : RSegment := ⟨SegmentType.move, ix, seg.toW⟩
            toIx :: plateauGo elevation tFloor reset freefall ixFn fuel false (some toIx)
              (fromIx :: rest)
        | Option.none =>
          seg :: plateauGo elevation tFloor reset freefall ixFn fuel false (some seg) rest
      else
        seg :: plateauGo elevation tFloor reset freefall ixFn fuel entered (some seg) rest
    | SegmentType.exit =>
      if reset = false then
        seg :: plateauGo elevation tFloor reset freefall ixFn fuel false (some seg) rest
      else if ¬(freefall = true ∨ (entered = true ∧ elevation ≠ seg.fromW.elevation)) then
        seg :: plateauGo elevation tFloor reset freefall ixFn fuel false (some seg) rest
      else
        exitResetSegments tFloor prev seg ++
          plateauGo elevation tFloor reset freefall ixFn fuel false
            (some (setSegElevations seg tFloor)) rest

/-- `modifySegmentsForPlateau(segments, behavior, freefall)` (Region.js lines
400-469).  The guard on line 401 returns the list untouched unless the
behavior is an enabled `setElevation` behavior whose algorithm is PLATEAU.
`terrainFloor` is the scene background-elevation flag (line 404). -/
def modifySegmentsForPlateau (b : Behavior) (terrainFloor : ℚ) (freefall : Bool)
    (ixFn : RWaypoint → RWaypoint → Option RWaypoint)
    (segments : List RSegment) : List RSegment :=
  if b.btype ≠ BType.setElevation ∨ b.disabled = true ∨
      b.system.algorithm ≠ Choices.PLATEAU then segments
  else
    plateauGo b.system.elevation terrainFloor b.system.reset freefall ixFn
      (2 * segments.length + 1) false Option.none segments

/-- The scan loop of `modifySegmentsForStairs` (Region.js lines 490-519).
State: `entered`, the `up` direction chosen at ENTER, and the held
`targetElevation`.  `midE` is precomputed by the caller (line 484).  There is
no segment splitting here, so the recursion is structural. -/
def stairsGo (elevation floor tFloor midE : ℚ) (reset : Bool) :
    Bool → Bool → ℚ → Option RSegment → List RSegment → List RSegment
  | _, _, _, _, [] => []
  | entered, up, target, prev, seg :: rest =>
    match seg.stype with
    | SegmentType.enter =>
      let up' := decide (seg.fromW.elevation ≤ midE)
      let target' := if up' then elevation else floor
      seg :: stairsGo elevation floor tFloor midE reset true up' target' (some seg) rest
    | SegmentType.move =>
      if entered then
        let s : RSegment :=
          { seg with
            fromW := { seg.fromW with elevation :=
              if up then (max target seg.fromW.elevation) else (min target seg.fromW.elevation) },
            toW := { seg.toW with elevation :=
              if up then (max target seg.toW.elevation) else (min target seg.toW.elevation) } }
        s :: stairsGo elevation floor tFloor midE reset entered up target (some s) rest
      else
        seg :: stairsGo elevation floor tFloor midE reset entered up target (some seg) rest
    | SegmentType.exit =>
      if ¬(entered = true ∨ elevation = seg.fromW.elevation ∨ floor = seg.fromW.elevation) then
        seg :: stairsGo elevation floor tFloor midE reset entered up target (some seg) rest
      else if reset = false then
        seg :: stairsGo elevation floor tFloor midE reset false up target (some seg) rest
      else
        exitResetSegments tFloor prev seg ++
          stairsGo elevation floor tFloor midE reset false up target
            (some (setSegElevations seg tFloor)) rest

/-- `modifySegmentsForStairs(segments, behavior)` (Region.js lines 480-521).
The midpoint is `Math.round((elevation - floor) * 0.5)` (line 484), compared
directly against absolute entry elevations. -/
def modifySegmentsForStairs (b : Behavior) (terrainFloor : ℚ)
    (segments : List RSegment) : List RSegment :=
  if b.btype ≠ BType.setElevation ∨ b.disabled = true ∨
      b.system.algorithm ≠ Choices.STAIRS then segments
  else
    stairsGo b.system.elevation b.system.floor terrainFloor
      (jsRound ((b.system.elevation - b.system.floor) * (1/2))) b.system.reset
      false true b.system.elevation Option.none segments

/-- The scan loop of `modifySegmentsForRamp` (Region.js lines 538-600).
`behavior.system.plateauElevation(waypoint)` and
`behavior.system.plateauSegmentIntersection(a, b)` are methods of the
behavior system class outside `src/`; they are the function parameters
`elevFn` and `ixFn`.  `almostEqual` is exact equality in this model.  The
same fuel scheme as `plateauGo` bounds the split-and-resume recursion. -/
def rampGo (tFloor : ℚ) (reset freefall : Bool) (elevFn : RWaypoint → ℚ)
    (ixFn : RWaypoint → RWaypoint → Option RWaypoint) :
    Nat → Bool → Option RSegment → List RSegment → List RSegment
  | 0, _, _, segs => segs
  | _ + 1, _, _, [] => []
  | fuel + 1, entered, prev, seg :: rest =>
    match seg.stype with
    | SegmentType.enter =>
      let elevation := elevFn seg.toW
      if elevation = seg.toW.elevation then
        seg :: rampGo tFloor reset freefall elevFn ixFn fuel true (some seg) rest
      else
        let v := constructVerticalMoveSegment seg.toW elevation
        seg :: v :: rampGo tFloor reset freefall elevFn ixFn fuel true (some v) rest
    | SegmentType.move =>
      let curr := elevFn seg.fromW
      if entered = true ∨ seg.fromW.elevation = curr then
        let s : RSegment :=
          { seg with fromW := { seg.fromW with elevation := curr },
                     toW := { seg.toW with elevation := elevFn seg.toW } }
        s :: rampGo tFloor reset freefall elevFn ixFn fuel entered (some s) rest
      else if ¬(freefall = true ∨ seg.fromW.elevation = seg.toW.elevation) then
        seg :: rampGo tFloor reset freefall elevFn ixFn fuel entered (some seg) rest
      else
        match ixFn seg.fromW seg.toW with
        | Option.none =>
          seg :: rampGo tFloor reset freefall elevFn ixFn fuel entered (some seg) rest
        | some ix =>
          if ix = seg.fromW ∨ ix = seg.toW then
            seg :: rampGo tFloor reset freefall elevFn ixFn fuel entered (some seg) rest
          else
            let toIx : RSegment := ⟨SegmentType.move, seg.fromW, ix⟩
            let fromIx : RSegment := ⟨SegmentType.move, ix, seg.toW⟩
            toIx :: rampGo tFloor reset freefall elevFn ixFn fuel entered (some toIx)
              (fromIx :: rest)
    | SegmentType.exit =>
      if reset = false then
        seg :: rampGo tFloor reset freefall elevFn ixFn fuel false (some seg) rest
      else if ¬(freefall = true ∨ (entered = true ∧ elevFn seg.fromW ≠ seg.fromW.elevation)) then
        seg :: rampGo tFloor reset freefall elevFn ixFn fuel false (some seg) rest
      else
        exitResetSegments tFloor prev seg ++
          rampGo tFloor reset freefall elevFn ixFn fuel false
            (some (setSegElevations seg tFloor)) rest

/-- `modifySegmentsForRamp(segments, behavior, freefall)` (Region.js lines
531-602), with the guard of line 532. -/
def modifySegmentsForRamp (b : Behavior) (terrainFloor : ℚ) (freefall : Bool)
    (elevFn : RWaypoint → ℚ) (ixFn : RWaypoint → RWaypoint → Option RWaypoint)
    (segments : List RSegment) : List RSegment :=
  if b.btype ≠ BType.setElevation ∨ b.disabled = true ∨
      b.system.algorithm ≠ Choices.RAMP then segments
  else
    rampGo terrainFloor b.system.reset freefall elevFn ixFn
      (2 * segments.length + 1) false Option.none segments

/-- Degrees to radians, `Math.toRadians`. -/
noncomputable def toRadians (d : ℤ) : ℝ := (d : ℝ) * Real.pi / 180

/-- Clockwise rotation of a point about a centroid (the composite matrix
`trans * rotationZ(rotation) * revTrans` of `rotatePolygon`, Region.js lines
655-682).  `Matrix.rotationZ` belongs to the geometry library outside
`src/`; modelled from the spec, which describes the conceptual rotation of
each polygon point about the centroid, exactly invertible by rotating back. -/
noncomputable def rotatePoint (rotation : ℝ) (centroid p : ℝ × ℝ) : ℝ × ℝ :=
  let c := Real.cos rotation
  let s := Real.sin rotation
  let dx := p.1 - centroid.1
  let dy := p.2 - centroid.2
  (centroid.1 + dx * c - dy * s, centroid.2 + dx * s + dy * c)

/-- `rotatePolygon(poly, rotation, centroid)` (Region.js lines 655-682 and
RegionElevationHandler.js lines 464-491): the zero-rotation guard
(`if (!rotation) return poly;`) followed by the pointwise rotation. -/
noncomputable def rotatePolygon (poly : List (ℝ × ℝ)) (rotation : ℝ)
    (centroid : ℝ × ℝ) : List (ℝ × ℝ) :=
  if rotation = 0 then poly else poly.map (rotatePoint rotation centroid)

/-- Minimum of a list of reals (empty list gives 0; the polygons fed to the
bounding-box computation are nonempty). -/
noncomputable def listMinR : List ℝ → ℝ
  | [] => 0
  | v :: rest => rest.foldl min v

/-- Maximum of a list of reals (empty list gives 0). -/
noncomputable def listMaxR : List ℝ → ℝ
  | [] => 0
  | v :: rest => rest.foldl max v

/-- `minMaxPolygonPointsAlongAxis(poly, direction, centroid)` (Region.js
lines 694-715, duplicated at RegionElevationHandler.js lines 435-456).

For a direction that is not a multiple of 90 the polygon is rotated by
`toRadians(360 - direction)` so the axis becomes due south, the rotated
bounding box's vertical extremes on the centroid's vertical line are taken,
and the pair is rotated back.  For multiples of 90 the bounding box is read
directly — but only through a `switch` with cases 0, 90, 180 and 270 and no
default, so any other multiple of 90 (such as 360) returns `undefined`,
modelled as `none`. -/
noncomputable def minMaxPolygonPointsAlongAxis (poly : List (ℝ × ℝ)) (direction : ℤ)
    (centroid : ℝ × ℝ) : Option ((ℝ × ℝ) × (ℝ × ℝ)) :=
  if direction % 90 ≠ 0 then
    let rotated := rotatePolygon poly (toRadians (360 - direction)) centroid
    let top := listMinR (rotated.map Prod.snd)
    let bottom := listMaxR (rotated.map Prod.snd)
    let back := rotatePolygon [(centroid.1, top), (centroid.1, bottom)]
      (-(toRadians (360 - direction))) centroid
    some (back.getD 0 (0, 0), back.getD 1 (0, 0))
  else
    let top := listMinR (poly.map Prod.snd)
    let bottom := listMaxR (poly.map Prod.snd)
    let left := listMinR (poly.map Prod.fst)
    let right := listMaxR (poly.map Prod.fst)
    if direction = 0 then some ((centroid.1, top), (centroid.1, bottom))
    else if direction = 90 then some ((right, centroid.2), (left, centroid.2))
    else if direction = 180 then some ((centroid.1, bottom), (centroid.1, top))
    else if direction = 270 then some ((left, centroid.2), (right, centroid.2))
    else Option.none

/-- A region polygon: its point list and its `_isPositive` flag (holes are
negative). -/
structure RegionPoly where
  points : List (ℝ × ℝ)
  isPositive : Bool

/-- Squared distance over the reals, `PIXI.Point.distanceSquaredBetween`. -/
def dist2R (a b : ℝ × ℝ) : ℝ := (a.1 - b.1) ^ 2 + (a.2 - b.2) ^ 2

/-- A candidate extreme point carrying its cached squared distance from the
region center (the `_dist2` property the source attaches to the point). -/
structure MMPoint where
  pt : ℝ × ℝ
  d2 : ℝ

/-- The `{min, max}` pair produced by the region-level projection. -/
structure MinMaxPts where
  mn : MMPoint
  mx : MMPoint

/-- The center of `region.bounds`, the bounding box of all the region's
polygons (a host primitive; bounds are the min/max over the polygon points). -/
noncomputable def regionBoundsCenter (polys : List RegionPoly) : ℝ × ℝ :=
  let pts := (polys.map RegionPoly.points).flatten
  ((listMinR (pts.map Prod.fst) + listMaxR (pts.map Prod.fst)) / 2,
   (listMinR (pts.map Prod.snd) + listMaxR (pts.map Prod.snd)) / 2)

/-- The accumulation step of `minMaxRegionPointsAlongAxis` (Region.js lines
750-758, duplicated at RegionElevationHandler.js lines 286-294) for one
further positive polygon.

The source sets `res.min._dist2 = PIXI.Point.distanceSquaredBetween(minMax.min,
center)` and `res.max._dist2 = ... (minMax.max, center)` — both distances are
measured from the points already kept (`minMax.min` / `minMax.max`), not from
the new candidates `res.min` / `res.max` — and then replaces a kept point
when the computed value strictly exceeds its cached `_dist2`.  The embedding
reproduces those assignments exactly. -/
noncomputable def minMaxRegionStep (center : ℝ × ℝ) (mm : MinMaxPts)
    (res : (ℝ × ℝ) × (ℝ × ℝ)) : MinMaxPts :=
  let resMinD2 := dist2R mm.mn.pt center
  let resMaxD2 := dist2R mm.mx.pt center
  { mn := if resMinD2 > mm.mn.d2 then ⟨res.1, resMinD2⟩ else mm.mn,
    mx := if resMaxD2 > mm.mx.d2 then ⟨res.2, resMaxD2⟩ else mm.mx }

/-- `minMaxRegionPointsAlongAxis(region, direction)` (Region.js lines
739-760, duplicated as `#minMaxRegionPointsAlongAxis` at
RegionElevationHandler.js lines 275-296): filter to positive polygons
(holes never contribute), fail with `undefined` when none remain, seed the
result from the first polygon with cached squared distances from the region
bounds center, then fold the remaining polygons through
`minMaxRegionStep`.  An inner `undefined` from
`minMaxPolygonPointsAlongAxis` would make the JavaScript throw; that
unreachable state propagates as `none` / is skipped. -/
noncomputable def minMaxRegionPointsAlongAxis (polys : List RegionPoly)
    (direction : ℤ) : Option MinMaxPts :=
  match polys.filter RegionPoly.isPositive with
  | [] => Option.none
  | p0 :: rest =>
    let center := regionBoundsCenter polys
    match minMaxPolygonPointsAlongAxis p0.points direction center with
    | Option.none => Option.none
    | some (mn0, mx0) =>
      some (rest.foldl (fun mm poly =>
        match minMaxPolygonPointsAlongAxis poly.points direction center with
        | Option.none => mm
        | some res => minMaxRegionStep center mm res)
        ⟨⟨mn0, dist2R mn0 center⟩, ⟨mx0, dist2R mx0 center⟩⟩)

/-! ### Concrete instances used by the claim theorems -/

/-- A nearest-ground-elevation function that always reports ground 0. -/
def ngZero : RWaypoint → ℚ := fun _ => 0

/-- A plateau handler at elevation 20 (terrain floor 0). -/
def hPlateau20 : RegionElevationHandler := ⟨Choices.PLATEAU, 20, 0, 0, Option.none⟩

/-- The plateau intersection callback built from `hPlateau20`. -/
def ixPlateau20 : RWaypoint → RWaypoint → Option RWaypoint :=
  plateauSegmentIntersection ngZero hPlateau20

/-- An enabled plateau `setElevation` behavior at elevation 20, no reset. -/
def bPlateau20 : Behavior := ⟨BType.setElevation, false, ⟨Choices.PLATEAU, 20, 0, false⟩⟩

/-- An enabled plateau `setElevation` behavior at elevation 20 with reset. -/
def bPlateau20R : Behavior := ⟨BType.setElevation, false, ⟨Choices.PLATEAU, 20, 0, true⟩⟩

/-- An enabled stairs `setElevation` behavior with top 30 and floor 10. -/
def bStairs30f10 : Behavior := ⟨BType.setElevation, false, ⟨Choices.STAIRS, 30, 10, false⟩⟩

/-- An enabled stairs `setElevation` behavior with top 30 and floor 0. -/
def bStairs30f0 : Behavior := ⟨BType.setElevation, false, ⟨Choices.STAIRS, 30, 0, false⟩⟩

/-- An elevator behavior: every adjuster guard rejects it. -/
def bElevator : Behavior := ⟨BType.elevator, false, ⟨Choices.PLATEAU, 20, 0, true⟩⟩

/-- A ramp handler, floor 10, top 25, configured step size 5, axis from
(0,0) to (2,0). -/
def hRampStep5 : RegionElevationHandler := ⟨Choices.RAMP, 25, 10, 5, some ((0, 0), (2, 0))⟩

/-- A ramp handler whose cached min/max points coincide (degenerate axis). -/
def hRampDegenerate : RegionElevationHandler := ⟨Choices.RAMP, 10, 0, 0, some ((2, 3), (2, 3))⟩

/-- ENTER at (0,0) staying at elevation 0. -/
def enterAt0 : RSegment := ⟨SegmentType.enter, ⟨0, 0, 0⟩, ⟨0, 0, 0⟩⟩

/-- ENTER crossing at elevation 15 (between floor 10 and top 30). -/
def enterAt15 : RSegment := ⟨SegmentType.enter, ⟨0, 0, 15⟩, ⟨1, 0, 15⟩⟩

/-- MOVE at elevation 15 following `enterAt15`. -/
def moveAt15 : RSegment := ⟨SegmentType.move, ⟨1, 0, 15⟩, ⟨2, 0, 15⟩⟩

/-- ENTER crossing at elevation 10. -/
def enterAt10 : RSegment := ⟨SegmentType.enter, ⟨0, 0, 10⟩, ⟨1, 0, 10⟩⟩

/-- MOVE at elevation 10 following `enterAt10`. -/
def moveAt10 : RSegment := ⟨SegmentType.move, ⟨1, 0, 10⟩, ⟨2, 0, 10⟩⟩

/-- ENTER crossing at elevation 20. -/
def enterAt20 : RSegment := ⟨SegmentType.enter, ⟨0, 0, 20⟩, ⟨1, 0, 20⟩⟩

/-- MOVE at elevation 20 following `enterAt20`. -/
def moveAt20 : RSegment := ⟨SegmentType.move, ⟨1, 0, 20⟩, ⟨2, 0, 20⟩⟩

/-! ### Claim theorems -/

/-- Claim C10: each of `modifySegmentsForPlateau`, `modifySegmentsForStairs`
and `modifySegmentsForRamp` returns its input list unchanged — no segment
added, removed or mutated — whenever the behavior is not a `setElevation`
behavior, or is disabled, or its algorithm does not match the adjuster's
kind (the guards at Region.js lines 401, 481 and 532). -/
theorem adjuster_guard_noop (b : Behavior) (tF : ℚ) (ff : Bool)
    (elevFn : RWaypoint → ℚ) (ixFn : RWaypoint → RWaypoint → Option RWaypoint)
    (segs : List RSegment) :
    ((b.btype ≠ BType.setElevation ∨ b.disabled = true ∨
        b.system.algorithm ≠ Choices.PLATEAU) →
      modifySegmentsForPlateau b tF ff ixFn segs = segs) ∧
    ((b.btype ≠ BType.setElevation ∨ b.disabled = true ∨
        b.system.algorithm ≠ Choices.STAIRS) →
      modifySegmentsForStairs b tF segs = segs) ∧
    ((b.btype ≠ BType.setElevation ∨ b.disabled = true ∨
        b.system.algorithm ≠ Choices.RAMP) →
      modifySegmentsForRamp b tF ff elevFn ixFn segs = segs) := by
  refine ⟨fun h => ?_, fun h => ?_, fun h => ?_⟩
  · simp only [modifySegmentsForPlateau, if_pos h]
  · simp only [modifySegmentsForStairs, if_pos h]
  · simp only [modifySegmentsForRamp, if_pos h]

/-- Witness for C10: the elevator behavior trips all three guards and the
sample list passes through each adjuster untouched. -/
theorem adjuster_guard_noop_witness :
    modifySegmentsForPlateau bElevator 0 false ixPlateau20 [enterAt0] = [enterAt0] ∧
    modifySegmentsForStairs bElevator 0 [enterAt0] = [enterAt0] ∧
    modifySegmentsForRamp bElevator 0 false ngZero ixPlateau20 [enterAt0] = [enterAt0] :=
  ⟨(adjuster_guard_noop bElevator 0 false ngZero ixPlateau20 [enterAt0]).1
      (Or.inl (by simp [bElevator])),
   (adjuster_guard_noop bElevator 0 false ngZero ixPlateau20 [enterAt0]).2.1
      (Or.inl (by simp [bElevator])),
   (adjuster_guard_noop bElevator 0 false ngZero ixPlateau20 [enterAt0]).2.2
      (Or.inl (by simp [bElevator]))⟩

/-- Claim C9: for a purely vertical move (`a` and `b` share x,y),
`plateauSegmentIntersection` returns the waypoint whose elevation is the
larger of the two endpoints' nearest-ground elevations whenever that value
lies (inclusively) between `a.elevation` and `b.elevation`, and `null`
otherwise (RegionElevationHandler.js lines 87-92). -/
theorem plateau_vertical_segment_intersection (ng : RWaypoint → ℚ)
    (h : RegionElevationHandler) (a b : RWaypoint)
    (hx : a.x = b.x) (hy : a.y = b.y) :
    (min a.elevation b.elevation ≤ max (ng a) (ng b) ∧
        max (ng a) (ng b) ≤ max a.elevation b.elevation →
      plateauSegmentIntersection ng h a b = some { a with elevation := max (ng a) (ng b) }) ∧
    (¬(min a.elevation b.elevation ≤ max (ng a) (ng b) ∧
        max (ng a) (ng b) ≤ max a.elevation b.elevation) →
      plateauSegmentIntersection ng h a b = Option.none) := by
  constructor <;> intro hcond <;>
    simp only [plateauSegmentIntersection, if_pos (And.intro hx hy)]
  · exact if_pos hcond
  · exact if_neg hcond

/-- Witness for C9: a vertical move from elevation 0 to 10 at (1,2), with
nearest ground elevation 5 for both endpoints, intersects at elevation 5. -/
theorem plateau_vertical_segment_intersection_witness :
    plateauSegmentIntersection (fun _ => (5 : ℚ)) hPlateau20 ⟨1, 2, 0⟩ ⟨1, 2, 10⟩ =
      some ⟨1, 2, max 5 5⟩ :=
  (plateau_vertical_segment_intersection (fun _ => (5 : ℚ)) hPlateau20
      ⟨1, 2, 0⟩ ⟨1, 2, 10⟩ rfl rfl).1 (by norm_num [min_def, max_def])

/-- Claim C2: evaluation of the stairs adjuster at the claim's inputs.

The two floor-0 branches behave as claimed (top 30, floor 0, midpoint 15:
entry at 10 is raised to 30, entry at 20 is dropped to 0).  But the code
compares the entry elevation against `Math.round((elevation - floor) * 0.5)`
directly (Region.js line 484), an offset from the floor, not against the
absolute midpoint `floor + round((top - floor)/2)` the claim (and the
function's own doc comment, "halfway between top/floor") describes: with
top 30 and floor 10 the entry elevation 15 is at or below the absolute
midpoint 20, so the claim requires target 30, yet the code compares
15 against 10 and moves the token down to the floor 10. -/
theorem stairs_midpoint_compared_absolutely :
    modifySegmentsForStairs bStairs30f0 0 [enterAt10, moveAt10] =
      [enterAt10, ⟨SegmentType.move, ⟨1, 0, 30⟩, ⟨2, 0, 30⟩⟩] ∧
    modifySegmentsForStairs bStairs30f0 0 [enterAt20, moveAt20] =
      [enterAt20, ⟨SegmentType.move, ⟨1, 0, 0⟩, ⟨2, 0, 0⟩⟩] ∧
    modifySegmentsForStairs bStairs30f10 0 [enterAt15, moveAt15] =
      [enterAt15, ⟨SegmentType.move, ⟨1, 0, 10⟩, ⟨2, 0, 10⟩⟩] ∧
    (15 : ℚ) ≤ bStairs30f10.system.floor +
      jsRound ((bStairs30f10.system.elevation - bStairs30f10.system.floor) * (1/2)) := by
  refine ⟨?_, ?_, ?_, ?_⟩ <;>
    norm_num [modifySegmentsForStairs, stairsGo, bStairs30f0, bStairs30f10, enterAt10,
      moveAt10, enterAt20, moveAt20, enterAt15, moveAt15, jsRound, min_def, max_def]

/-- Claim C5: evaluation of `#rampElevation` on a ramp with floor 10,
ceiling 25 and configured step size 5, at the waypoint halfway along the
axis.

Because the method destructures `rampStepHeight` from `this`
(RegionElevationHandler.js line 323) while the class only defines a
`rampStepSize` getter (line 53), the step height is `undefined` and the
stepped branch never runs: the result is the continuous interpolation
`round(10 + 0.5 * 15) = 18`.  18 is not of the form `10 + k*5` and lies
strictly between the step elevations 15 and 20, refuting the claim that
only `{floor, floor+h, ...} ∩ [floor, ceiling]` is returned. -/
theorem ramp_step_height_ignored :
    rampElevation hRampStep5 ⟨1, 0, 0⟩ = some 18 ∧
    hRampStep5.rampStepSize = 5 ∧
    ¬((5 : ℤ) ∣ (18 - 10)) ∧
    (15 : ℚ) < 18 ∧ (18 : ℚ) < 20 := by
  refine ⟨?_, rfl, by decide, by norm_num, by norm_num⟩
  norm_num [rampElevation, hRampStep5, dist2Q, dot2Q, clampQ, jsRound]

/-- Claim C7: evaluation of `#rampElevation` on a ramp whose cached min and
max axis points coincide.

The source has no degenerate-geometry guard: `t0` is computed as a distance
divided by `PIXI.Point.distanceBetween(minMax.min, minMax.max) = 0`, which
in JavaScript yields NaN, and the NaN propagates to the returned elevation
(modelled as `none`).  The claimed special case returning the ramp floor
does not exist: the result is not `some rampFloor`. -/
theorem ramp_degenerate_minmax_returns_nan :
    rampElevation hRampDegenerate ⟨4, 4, 7⟩ = Option.none ∧
    rampElevation hRampDegenerate ⟨4, 4, 7⟩ ≠ some hRampDegenerate.rampFloor := by
  have h : rampElevation hRampDegenerate ⟨4, 4, 7⟩ = Option.none := by
    norm_num [rampElevation, hRampDegenerate, dist2Q]
  exact ⟨h, by simp [h]⟩

/-- Scanning a list that contains only MOVE segments with `entered = false`
and `freefall = false` leaves every segment untouched: the not-entered MOVE
case without freefall is a no-op. -/
theorem plateauGo_moveOnly (elevation tF : ℚ) (reset : Bool)
    (ixFn : RWaypoint → RWaypoint → Option RWaypoint) :
    ∀ (l : List RSegment) (fuel : Nat) (prev : Option RSegment),
      (∀ s ∈ l, s.stype = SegmentType.move) →
      plateauGo elevation tF reset false ixFn fuel false prev l = l := by
  intro l
  induction l with
  | nil => intro fuel prev _; cases fuel <;> rfl
  | cons s rest ih =>
    intro fuel prev hall
    cases fuel with
    | zero => rfl
    | succ f =>
      obtain ⟨st, sf, stt⟩ := s
      have hs : st = SegmentType.move := hall ⟨st, sf, stt⟩ (by simp)
      subst hs
      have ihr := ih f (some (⟨SegmentType.move, sf, stt⟩ : RSegment))
        (fun m hm => hall m (List.mem_cons_of_mem _ hm))
      simp [plateauGo, ihr]

/-- Claim C4 (amended): for a segment list containing only MOVE segments and
`freefall = false`, the plateau adjustment is the identity, and therefore
running it a second time changes nothing.  (The unamended claim — a fixed
point for every list — fails; see the counterexample.) -/
theorem plateau_adjust_move_only_fixed_point (b : Behavior) (tF : ℚ)
    (ixFn : RWaypoint → RWaypoint → Option RWaypoint) (l : List RSegment)
    (hm : ∀ s ∈ l, s.stype = SegmentType.move) :
    modifySegmentsForPlateau b tF false ixFn l = l ∧
    modifySegmentsForPlateau b tF false ixFn (modifySegmentsForPlateau b tF false ixFn l) =
      modifySegmentsForPlateau b tF false ixFn l := by
  have hid : modifySegmentsForPlateau b tF false ixFn l = l := by
    by_cases hg : b.btype ≠ BType.setElevation ∨ b.disabled = true ∨
      b.system.algorithm ≠ Choices.PLATEAU
    · simp only [modifySegmentsForPlateau, if_pos hg]
    · simp only [modifySegmentsForPlateau, if_neg hg]
      exact plateauGo_moveOnly b.system.elevation tF b.system.reset ixFn l _ _ hm
  exact ⟨hid, by rw [hid, hid]⟩

/-- Witness for the amended C4: a single ordinary MOVE segment passes
through the plateau adjuster unchanged, and re-running is a fixed point. -/
theorem plateau_adjust_move_only_fixed_point_witness :
    modifySegmentsForPlateau bPlateau20 0 false ixPlateau20 [moveAt10] = [moveAt10] ∧
    modifySegmentsForPlateau bPlateau20 0 false ixPlateau20
        (modifySegmentsForPlateau bPlateau20 0 false ixPlateau20 [moveAt10]) =
      modifySegmentsForPlateau bPlateau20 0 false ixPlateau20 [moveAt10] :=
  plateau_adjust_move_only_fixed_point bPlateau20 0 ixPlateau20 [moveAt10]
    (by intro s hs; simp at hs; simp [hs, moveAt10])

/-- Counterexample to C4 as stated: adjusting `[ENTER at elevation 0]` for a
plateau at 20 appends a synthetic vertical MOVE (0 to 20); running the
adjuster again on that output re-inserts a second vertical MOVE after the
ENTER segment, whose destination elevation is still 0, and clamps the first
synthetic segment — the second run adds a segment and changes elevations,
so the adjustment is not a fixed point. -/
theorem plateau_adjust_not_idempotent :
    modifySegmentsForPlateau bPlateau20 0 false ixPlateau20
        (modifySegmentsForPlateau bPlateau20 0 false ixPlateau20 [enterAt0]) ≠
      modifySegmentsForPlateau bPlateau20 0 false ixPlateau20 [enterAt0] := by
  norm_num [modifySegmentsForPlateau, plateauGo, bPlateau20, enterAt0,
    constructVerticalMoveSegment, clampToElevation]

/-- Claim C6: the ENTER case of the plateau adjuster (Region.js lines
411-423).  When the ENTER segment's destination elevation is below the
plateau elevation, exactly one synthetic vertical MOVE segment — same x,y,
elevation running from the old value to the plateau elevation — is spliced
immediately after the ENTER segment (the scan resuming after it); when the
destination is already at the plateau elevation, nothing is inserted. -/
theorem plateau_enter_inserts_vertical_move (b : Behavior) (tF : ℚ) (ff : Bool)
    (ixFn : RWaypoint → RWaypoint → Option RWaypoint) (seg : RSegment) (rest : List RSegment)
    (hb : b.btype = BType.setElevation) (hd : b.disabled = false)
    (ha : b.system.algorithm = Choices.PLATEAU) (he : seg.stype = SegmentType.enter) :
    (seg.toW.elevation < b.system.elevation →
      modifySegmentsForPlateau b tF ff ixFn (seg :: rest) =
        seg :: constructVerticalMoveSegment seg.toW b.system.elevation ::
          plateauGo b.system.elevation tF b.system.reset ff ixFn (2 * rest.length + 2) true
            (some (constructVerticalMoveSegment seg.toW b.system.elevation)) rest) ∧
    (seg.toW.elevation = b.system.elevation →
      modifySegmentsForPlateau b tF ff ixFn (seg :: rest) =
        seg :: plateauGo b.system.elevation tF b.system.reset ff ixFn (2 * rest.length + 2) true
          (some seg) rest) ∧
    (constructVerticalMoveSegment seg.toW b.system.elevation).stype = SegmentType.move ∧
    (constructVerticalMoveSegment seg.toW b.system.elevation).fromW = seg.toW ∧
    (constructVerticalMoveSegment seg.toW b.system.elevation).toW =
      { seg.toW with elevation := b.system.elevation } := by
  have hguard : ¬(b.btype ≠ BType.setElevation ∨ b.disabled = true ∨
      b.system.algorithm ≠ Choices.PLATEAU) := by simp [hb, hd, ha]
  have hlen : 2 * (seg :: rest).length + 1 = (2 * rest.length + 2) + 1 := by
    simp [List.length_cons]; ring
  refine ⟨fun hlt => ?_, fun heq => ?_, rfl, rfl, rfl⟩
  · simp only [modifySegmentsForPlateau, if_neg hguard]
    rw [hlen]
    simp only [plateauGo, he, if_neg hlt.ne']
  · simp only [modifySegmentsForPlateau, if_neg hguard]
    rw [hlen]
    simp only [plateauGo, he, if_pos heq.symm]

/-- Witness for C6: entering the elevation-20 plateau at elevation 0 splices
the single vertical MOVE from 0 to 20 right after the ENTER segment. -/
theorem plateau_enter_inserts_vertical_move_witness :
    modifySegmentsForPlateau bPlateau20 0 false ixPlateau20 [enterAt0] =
      enterAt0 :: constructVerticalMoveSegment enterAt0.toW bPlateau20.system.elevation ::
        plateauGo bPlateau20.system.elevation 0 bPlateau20.system.reset false ixPlateau20
          (2 * List.length ([] : List RSegment) + 2) true
          (some (constructVerticalMoveSegment enterAt0.toW bPlateau20.system.elevation)) [] :=
  (plateau_enter_inserts_vertical_move bPlateau20 0 false ixPlateau20 enterAt0 []
    rfl rfl rfl rfl).1 (by norm_num [enterAt0, bPlateau20])

/-- The scan returns the empty list on an empty worklist for any fuel. -/
theorem plateauGo_emptyList (elevation tF : ℚ) (r f : Bool)
    (ixFn : RWaypoint → RWaypoint → Option RWaypoint) (fuel : Nat) (ent : Bool)
    (prev : Option RSegment) : plateauGo elevation tF r f ixFn fuel ent prev [] = [] := by
  cases fuel <;> rfl

/-- After entry, the plateau scan clamps each MOVE segment and, reaching an
EXIT whose `from` elevation differs from the plateau elevation with
`reset = true`, replaces the EXIT by `exitResetSegments` computed from the
last scanned segment. -/
theorem plateauGo_entered_to_exit (elevation tF : ℚ) (ff : Bool)
    (ixFn : RWaypoint → RWaypoint → Option RWaypoint) (x : RSegment)
    (hx : x.stype = SegmentType.exit) (hoff : elevation ≠ x.fromW.elevation) :
    ∀ (moves : List RSegment) (fuel : Nat) (prev : RSegment),
      moves.length < fuel → (∀ m ∈ moves, m.stype = SegmentType.move) →
      plateauGo elevation tF true ff ixFn fuel true (some prev) (moves ++ [x]) =
        moves.map (clampToElevation elevation) ++
          exitResetSegments tF
            (some ((moves.map (clampToElevation elevation)).getLastD prev)) x := by
  intro moves
  induction moves with
  | nil =>
    intro fuel prev hf _
    cases fuel with
    | zero => omega
    | succ f =>
      simp only [List.nil_append, List.map_nil, List.getLastD_nil]
      simp only [plateauGo, hx]
      rw [if_neg (by simp), if_neg (by simp [hoff])]
      rw [plateauGo_emptyList]
      simp
  | cons m rest ih =>
    intro fuel prev hf hall
    cases fuel with
    | zero => omega
    | succ f =>
      have hm : m.stype = SegmentType.move := hall m (by simp)
      simp only [List.cons_append, plateauGo, hm, if_pos rfl]
      rw [List.map_cons, List.getLastD_cons]
      simp only [List.cons_append]
      exact congrArg _ (ih f (clampToElevation elevation m)
        (by simpa using Nat.lt_of_succ_lt_succ hf)
        (fun s hs => hall s (List.mem_cons_of_mem _ hs)))

/-- Claim C3 (amended): for a plateau behavior with `reset = true`, a
single-crossing path ENTER–MOVE*–EXIT whose entry was below/off the plateau
elevation and whose EXIT `from`-elevation also differs from the plateau
elevation ends back at the terrain floor: the EXIT segment's elevations are
set to the floor, and the path gains one or two synthetic vertical MOVE
segments — the raise after ENTER always, plus a drop before the EXIT
exactly when the segment preceding it does not already end at the floor
(`exitResetSegments`).  The unamended claim omits the EXIT `from`-elevation
condition; see the counterexample. -/
theorem plateau_reset_exit_returns_to_floor (b : Behavior) (tF : ℚ) (ff : Bool)
    (ixFn : RWaypoint → RWaypoint → Option RWaypoint) (e x : RSegment)
    (moves : List RSegment)
    (hb : b.btype = BType.setElevation) (hd : b.disabled = false)
    (ha : b.system.algorithm = Choices.PLATEAU) (hr : b.system.reset = true)
    (he : e.stype = SegmentType.enter) (hx : x.stype = SegmentType.exit)
    (hm : ∀ m ∈ moves, m.stype = SegmentType.move)
    (hraised : b.system.elevation ≠ e.toW.elevation)
    (hoff : b.system.elevation ≠ x.fromW.elevation) :
    modifySegmentsForPlateau b tF ff ixFn (e :: (moves ++ [x])) =
      e :: constructVerticalMoveSegment e.toW b.system.elevation ::
        (moves.map (clampToElevation b.system.elevation) ++
          exitResetSegments tF
            (some ((moves.map (clampToElevation b.system.elevation)).getLastD
              (constructVerticalMoveSegment e.toW b.system.elevation))) x) ∧
    (∀ p : RSegment, exitResetSegments tF (some p) x =
      if p.toW.elevation = tF then [setSegElevations x tF]
      else [constructVerticalMoveSegment p.toW tF, setSegElevations x tF]) ∧
    (setSegElevations x tF).fromW.elevation = tF ∧
    (setSegElevations x tF).toW.elevation = tF := by
  have hguard : ¬(b.btype ≠ BType.setElevation ∨ b.disabled = true ∨
      b.system.algorithm ≠ Choices.PLATEAU) := by simp [hb, hd, ha]
  have hlen : 2 * (e :: (moves ++ [x])).length + 1 = (2 * moves.length + 4) + 1 := by
    simp [List.length_cons, List.length_append]; ring
  refine ⟨?_, fun p => rfl, rfl, rfl⟩
  simp only [modifySegmentsForPlateau, if_neg hguard]
  rw [hlen]
  simp only [plateauGo, he, if_neg hraised]
  rw [hr]
  rw [plateauGo_entered_to_exit b.system.elevation tF ff ixFn x hx hoff moves
    (2 * moves.length + 4) (constructVerticalMoveSegment e.toW b.system.elevation)
    (by omega) hm]

/-- MOVE rising from elevation 0 to 5 inside the region. -/
def moveRiseTo5 : RSegment := ⟨SegmentType.move, ⟨1, 0, 0⟩, ⟨2, 0, 5⟩⟩

/-- EXIT whose raw waypoints sit at elevation 5. -/
def exitAt5 : RSegment := ⟨SegmentType.exit, ⟨2, 0, 5⟩, ⟨3, 0, 5⟩⟩

/-- Witness for the amended C3: entering the reset plateau at 0, moving with
raw destination elevation 5, and exiting with raw elevation 5 produces the
raise segment, the clamped MOVE, the synthetic drop, and the EXIT pinned to
the terrain floor. -/
theorem plateau_reset_exit_returns_to_floor_witness :
    modifySegmentsForPlateau bPlateau20R 0 false ixPlateau20
        (enterAt0 :: ([moveRiseTo5] ++ [exitAt5])) =
      enterAt0 :: constructVerticalMoveSegment enterAt0.toW bPlateau20R.system.elevation ::
        ([moveRiseTo5].map (clampToElevation bPlateau20R.system.elevation) ++
          exitResetSegments 0
            (some (([moveRiseTo5].map (clampToElevation bPlateau20R.system.elevation)).getLastD
              (constructVerticalMoveSegment enterAt0.toW bPlateau20R.system.elevation)))
            exitAt5) :=
  (plateau_reset_exit_returns_to_floor bPlateau20R 0 false ixPlateau20 enterAt0 exitAt5
    [moveRiseTo5] rfl rfl rfl rfl rfl rfl
    (by intro m hm; simp at hm; simp [hm, moveRiseTo5])
    (by norm_num [bPlateau20R, enterAt0])
    (by norm_num [bPlateau20R, exitAt5])).1

/-- MOVE whose raw destination elevation is already 20. -/
def moveRiseTo20 : RSegment := ⟨SegmentType.move, ⟨1, 0, 0⟩, ⟨2, 0, 20⟩⟩

/-- EXIT whose raw waypoints sit at elevation 20, the plateau elevation. -/
def exitAt20 : RSegment := ⟨SegmentType.exit, ⟨2, 0, 20⟩, ⟨3, 0, 20⟩⟩

/-- Counterexample to C3 as stated: with `reset = true` the token enters the
elevation-20 plateau at elevation 0 (so it is raised — the claim's
antecedent holds), yet because the EXIT segment's raw `from` elevation
equals the plateau elevation, the guard at Region.js line 457 skips the
reset: the EXIT keeps elevation 20 on both endpoints (not the terrain floor
0) and no synthetic drop is added — the adjusted path is exactly four
segments with the EXIT untouched. -/
theorem plateau_reset_exit_counterexample :
    modifySegmentsForPlateau bPlateau20R 0 false ixPlateau20
        [enterAt0, moveRiseTo20, exitAt20] =
      [enterAt0, constructVerticalMoveSegment enterAt0.toW 20,
        ⟨SegmentType.move, ⟨1, 0, 20⟩, ⟨2, 0, 20⟩⟩, exitAt20] ∧
    bPlateau20R.system.reset = true ∧
    bPlateau20R.system.elevation ≠ enterAt0.toW.elevation ∧
    exitAt20.fromW.elevation ≠ (0 : ℚ) ∧
    exitAt20.toW.elevation ≠ (0 : ℚ) := by
  refine ⟨?_, rfl, by norm_num [bPlateau20R, enterAt0], by norm_num [exitAt20],
    by norm_num [exitAt20]⟩
  norm_num [modifySegmentsForPlateau, plateauGo, bPlateau20R, enterAt0, moveRiseTo20,
    exitAt20, constructVerticalMoveSegment, clampToElevation, max_def]

/-- Two rotations with equal cosine and sine move every point identically. -/
theorem rotatePoint_congr (a b : ℝ) (hc : Real.cos a = Real.cos b)
    (hs : Real.sin a = Real.sin b) (c p : ℝ × ℝ) :
    rotatePoint a c p = rotatePoint b c p := by
  simp [rotatePoint, hc, hs]

/-- Two nonzero rotations with equal cosine and sine rotate a polygon
identically (both sides skip the zero-rotation guard). -/
theorem rotatePolygon_congr (poly : List (ℝ × ℝ)) (a b : ℝ) (ha : a ≠ 0) (hb : b ≠ 0)
    (hc : Real.cos a = Real.cos b) (hs : Real.sin a = Real.sin b) (c : ℝ × ℝ) :
    rotatePolygon poly a c = rotatePolygon poly b c := by
  simp only [rotatePolygon, if_neg ha, if_neg hb]
  have hfn : rotatePoint a c = rotatePoint b c := funext (rotatePoint_congr a b hc hs c)
  rw [hfn]

/-- Claim C8 (amended): for every direction `d` that is not a multiple of
90, `minMaxPolygonPointsAlongAxis` at `d` and at `d + 360k` produce the same
pair of points: both take the rotation branch, whose dependence on the
angle is only through its cosine and sine, which are 2π-periodic.  (For
multiples of 90 the claim fails — only the representatives 0/90/180/270 are
handled and e.g. direction 360 returns `undefined`; see the
counterexample.) -/
theorem minMaxPolygon_direction_periodic (poly : List (ℝ × ℝ)) (c : ℝ × ℝ) (d k : ℤ)
    (hd : d % 90 ≠ 0) :
    minMaxPolygonPointsAlongAxis poly d c =
      minMaxPolygonPointsAlongAxis poly (d + 360 * k) c := by
  have hd' : (d + 360 * k) % 90 ≠ 0 := by omega
  have hz : (360 - d : ℤ) ≠ 0 := by omega
  have hz' : (360 - (d + 360 * k) : ℤ) ≠ 0 := by omega
  have hne : toRadians (360 - d) ≠ 0 := by
    unfold toRadians
    exact div_ne_zero (mul_ne_zero (Int.cast_ne_zero.mpr hz) Real.pi_ne_zero) (by norm_num)
  have hne' : toRadians (360 - (d + 360 * k)) ≠ 0 := by
    unfold toRadians
    exact div_ne_zero (mul_ne_zero (Int.cast_ne_zero.mpr hz') Real.pi_ne_zero) (by norm_num)
  have hψ : toRadians (360 - (d + 360 * k)) =
      toRadians (360 - d) + (-k : ℤ) * (2 * Real.pi) := by
    unfold toRadians; push_cast; ring
  have hcos : Real.cos (toRadians (360 - d)) = Real.cos (toRadians (360 - (d + 360 * k))) := by
    rw [hψ, Real.cos_add_int_mul_two_pi]
  have hsin : Real.sin (toRadians (360 - d)) = Real.sin (toRadians (360 - (d + 360 * k))) := by
    rw [hψ, Real.sin_add_int_mul_two_pi]
  have h1 : rotatePolygon poly (toRadians (360 - d)) c =
      rotatePolygon poly (toRadians (360 - (d + 360 * k))) c :=
    rotatePolygon_congr poly _ _ hne hne' hcos hsin c
  have h2 : ∀ l, rotatePolygon l (-(toRadians (360 - d))) c =
      rotatePolygon l (-(toRadians (360 - (d + 360 * k)))) c := fun l =>
    rotatePolygon_congr l _ _ (neg_ne_zero.mpr hne) (neg_ne_zero.mpr hne')
      (by rw [Real.cos_neg, Real.cos_neg, hcos]) (by rw [Real.sin_neg, Real.sin_neg, hsin]) c
  simp only [minMaxPolygonPointsAlongAxis, if_pos hd, if_pos hd']
  rw [h1, h2]

/-- The unit square's boundary points. -/
def sqPoly : List (ℝ × ℝ) := [(0, 0), (10, 0), (10, 10), (0, 10)]

/-- Counterexample to C8 as stated: at direction 0 the projection returns a
pair (the bounding-box extremes on the vertical centerline), but at
direction 0 + 360·1 = 360 the `switch` over multiples of 90 has no matching
case and the function returns `undefined` — not the same pair. -/
theorem minMaxPolygon_direction_360_counterexample :
    minMaxPolygonPointsAlongAxis sqPoly 0 (5, 5) ≠
      minMaxPolygonPointsAlongAxis sqPoly (0 + 360 * 1) (5, 5) := by
  norm_num [minMaxPolygonPointsAlongAxis]
  simp

/-- Witness for the amended C8: directions 45 and 405 project the square to
the same pair of points. -/
theorem minMaxPolygon_direction_periodic_witness :
    (45 : ℤ) % 90 ≠ 0 ∧
    minMaxPolygonPointsAlongAxis sqPoly 45 (5, 5) =
      minMaxPolygonPointsAlongAxis sqPoly (45 + 360 * 1) (5, 5) :=
  ⟨by decide, minMaxPolygon_direction_periodic sqPoly (5, 5) 45 1 (by decide)⟩

/-- A positive square polygon spanning y 0..10 (seen first). -/
def polyLow : RegionPoly := ⟨[(0, 0), (10, 0), (10, 10), (0, 10)], true⟩

/-- A positive square polygon spanning y 20..40 (seen second). -/
def polyHigh : RegionPoly := ⟨[(0, 20), (10, 20), (10, 40), (0, 40)], true⟩

/-- Claim C1: evaluation of the region-level projection on two positive
polygons at direction 0 (region bounds center (5, 20)).

The second polygon's `max` candidate is (5, 40), strictly farther from the
center than the kept first-polygon candidate (5, 10) — squared distance 400
versus 100 (third and second conjuncts) — so the claim requires the result
`max` to be (5, 40).  But the source computes the candidate distances from
the points already kept (`minMax.min` / `minMax.max`, Region.js lines
754-755 and RegionElevationHandler.js lines 290-291) instead of from
`res.min` / `res.max`, so the strict comparison `x > x` never holds and the
result stays at the first polygon's pair ((5, 0), (5, 10)) (first
conjunct): a later polygon's farther point can never replace the kept
one. -/
theorem minMaxRegion_keeps_first_polygon_extreme :
    (minMaxRegionPointsAlongAxis [polyLow, polyHigh] 0).map
        (fun mm => (mm.mn.pt, mm.mx.pt)) =
      some (((5 : ℝ), 0), ((5 : ℝ), 10)) ∧
    minMaxPolygonPointsAlongAxis polyHigh.points 0 ((5 : ℝ), 20) =
      some (((5 : ℝ), 20), ((5 : ℝ), 40)) ∧
    dist2R ((5 : ℝ), 40) ((5 : ℝ), 20) > dist2R ((5 : ℝ), 10) ((5 : ℝ), 20) := by
  refine ⟨?_, ?_, ?_⟩
  · norm_num [minMaxRegionPointsAlongAxis, minMaxPolygonPointsAlongAxis, regionBoundsCenter,
      minMaxRegionStep, listMinR, listMaxR, polyLow, polyHigh, dist2R, List.filter,
      min_def, max_def]
  · norm_num [minMaxPolygonPointsAlongAxis, listMinR, listMaxR, polyHigh, min_def, max_def]
  · norm_num [dist2R]
